import Mathlib

/-!
Shallow embedding of the products-API query-and-pagination core.

JavaScript numbers are modelled as exact rationals extended with NaN and the
two infinities (IEEE rounding and overflow of huge literals to Infinity are
not modelled; every concrete input used below is exactly representable).
String length and trimming follow Lean's `String` functions, which agree with
JavaScript on the ASCII inputs in scope.
-/

/-- JavaScript number: NaN, +Infinity, -Infinity, or a finite value. -/
inductive JSNum where
  | nan : JSNum
  | posInf : JSNum
  | negInf : JSNum
  | num : ℚ → JSNum
deriving DecidableEq, Repr

/-- `Math.max` (returns NaN if either argument is NaN). -/
def jsMax : JSNum → JSNum → JSNum
  | .nan, _ => .nan
  | _, .nan => .nan
  | .posInf, _ => .posInf
  | _, .posInf => .posInf
  | .negInf, b => b
  | a, .negInf => a
  | .num a, .num b => .num (max a b)

/-- `Math.min` (returns NaN if either argument is NaN). -/
def jsMin : JSNum → JSNum → JSNum
  | .nan, _ => .nan
  | _, .nan => .nan
  | .negInf, _ => .negInf
  | _, .negInf => .negInf
  | .posInf, b => b
  | a, .posInf => a
  | .num a, .num b => .num (min a b)

/-- JavaScript subtraction. -/
def jsSub : JSNum → JSNum → JSNum
  | .nan, _ => .nan
  | _, .nan => .nan
  | .posInf, .posInf => .nan
  | .posInf, _ => .posInf
  | .negInf, .negInf => .nan
  | .negInf, _ => .negInf
  | .num _, .posInf => .negInf
  | .num _, .negInf => .posInf
  | .num a, .num b => .num (a - b)

/-- JavaScript multiplication. -/
def jsMul : JSNum → JSNum → JSNum
  | .nan, _ => .nan
  | _, .nan => .nan
  | .num a, .num b => .num (a * b)
  | .posInf, .posInf => .posInf
  | .posInf, .negInf => .negInf
  | .negInf, .posInf => .negInf
  | .negInf, .negInf => .posInf
  | .posInf, .num b => if b = 0 then .nan else if 0 < b then .posInf else .negInf
  | .negInf, .num b => if b = 0 then .nan else if 0 < b then .negInf else .posInf
  | .num a, .posInf => if a = 0 then .nan else if 0 < a then .posInf else .negInf
  | .num a, .negInf => if a = 0 then .nan else if 0 < a then .negInf else .posInf

/-- JavaScript division (division by zero gives a signed infinity, 0/0 NaN). -/
def jsDiv : JSNum → JSNum → JSNum
  | .nan, _ => .nan
  | _, .nan => .nan
  | .num a, .num b =>
      if b = 0 then (if a = 0 then .nan else if 0 < a then .posInf else .negInf)
      else .num (a / b)
  | .posInf, .num b => if 0 ≤ b then .posInf else .negInf
  | .negInf, .num b => if 0 ≤ b then .negInf else .posInf
  | .num _, .posInf => .num 0
  | .num _, .negInf => .num 0
  | _, _ => .nan

/-- `Math.ceil`. -/
def jsCeil : JSNum → JSNum
  | .nan => .nan
  | .posInf => .posInf
  | .negInf => .negInf
  | .num a => .num ((Int.ceil a : ℤ) : ℚ)

/-- JavaScript `<=` (false whenever either side is NaN). -/
def jsLe : JSNum → JSNum → Bool
  | .nan, _ => false
  | _, .nan => false
  | .negInf, _ => true
  | _, .posInf => true
  | .posInf, _ => false
  | _, .negInf => false
  | .num a, .num b => a ≤ b

/-- JavaScript `<` (false whenever either side is NaN). -/
def jsLt : JSNum → JSNum → Bool
  | .nan, _ => false
  | _, .nan => false
  | .negInf, .negInf => false
  | .negInf, _ => true
  | .posInf, _ => false
  | _, .posInf => true
  | .num _, .negInf => false
  | .num a, .num b => a < b

/-- `isNaN` on an already-converted number. -/
def jsIsNaN : JSNum → Bool
  | .nan => true
  | _ => false

/-- `Number.isFinite`. -/
def jsIsFinite : JSNum → Bool
  | .num _ => true
  | _ => false

/-- Drop leading whitespace, as both `parseInt` and `parseFloat` do. -/
def dropWs (cs : List Char) : List Char := cs.dropWhile Char.isWhitespace

/-- Longest prefix of decimal digits. -/
def takeDigits : List Char → List Char
  | [] => []
  | c :: cs => if c.isDigit then c :: takeDigits cs else []

/-- Value of a list of decimal digits. -/
def digitsToNat (l : List Char) : ℕ :=
  l.foldl (fun a c => 10 * a + (c.toNat - 48)) 0

/-- `parseInt` on a list of characters after whitespace stripping: optional
sign then the longest decimal-digit prefix; NaN when no digit follows.
The automatic radix-16 branch for a `0x` prefix is not modelled; all inputs
in scope are decimal. -/
def parseIntChars (cs : List Char) : JSNum :=
  match cs with
  | '-' :: rest =>
      let ds := takeDigits rest
      if ds.isEmpty then .nan else .num (-(digitsToNat ds : ℚ))
  | '+' :: rest =>
      let ds := takeDigits rest
      if ds.isEmpty then .nan else .num ((digitsToNat ds : ℚ))
  | rest =>
      let ds := takeDigits rest
      if ds.isEmpty then .nan else .num ((digitsToNat ds : ℚ))

/-- JavaScript `parseInt` (default radix). -/
def parseIntJS (s : String) : JSNum := parseIntChars (dropWs s.toList)

/-- Mantissa of a float literal: digits, optionally a dot and more digits;
fails when no digit is present at all.  Returns the value and the rest. -/
def parseMantissa (cs : List Char) : Option (ℚ × List Char) :=
  let intDs := takeDigits cs
  let rest1 := cs.drop intDs.length
  match rest1 with
  | '.' :: rest2 =>
      let fracDs := takeDigits rest2
      if intDs.isEmpty && fracDs.isEmpty then none
      else some ((digitsToNat intDs : ℚ) + (digitsToNat fracDs : ℚ) / ((10 : ℚ) ^ fracDs.length),
                 rest2.drop fracDs.length)
  | _ =>
      if intDs.isEmpty then none
      else some ((digitsToNat intDs : ℚ), rest1)

/-- Signed decimal exponent; an unparsable exponent is ignored (value 0),
matching `parseFloat`'s longest-valid-prefix rule. -/
def parseSignedExp (cs : List Char) : ℤ :=
  match cs with
  | '-' :: rest => let ds := takeDigits rest; if ds.isEmpty then 0 else -(digitsToNat ds : ℤ)
  | '+' :: rest => let ds := takeDigits rest; if ds.isEmpty then 0 else (digitsToNat ds : ℤ)
  | rest => let ds := takeDigits rest; if ds.isEmpty then 0 else (digitsToNat ds : ℤ)

/-- Exponent part of a float literal, if any. -/
def parseExponent (cs : List Char) : ℤ :=
  match cs with
  | 'e' :: rest => parseSignedExp rest
  | 'E' :: rest => parseSignedExp rest
  | _ => 0

/-- Does the input start with the literal `Infinity`? -/
def startsWithInfinity (cs : List Char) : Bool :=
  match cs with
  | 'I' :: 'n' :: 'f' :: 'i' :: 'n' :: 'i' :: 't' :: 'y' :: _ => true
  | _ => false

/-- JavaScript `parseFloat`: optional sign, then either the literal
`Infinity` or a decimal mantissa with optional exponent. -/
def parseFloatJS (s : String) : JSNum :=
  let cs := dropWs s.toList
  match cs with
  | '-' :: body =>
      if startsWithInfinity body then .negInf
      else match parseMantissa body with
        | none => .nan
        | some (m, rest) => .num (-(m * (10 : ℚ) ^ parseExponent rest))
  | '+' :: body =>
      if startsWithInfinity body then .posInf
      else match parseMantissa body with
        | none => .nan
        | some (m, rest) => .num (m * (10 : ℚ) ^ parseExponent rest)
  | body =>
      if startsWithInfinity body then .posInf
      else match parseMantissa body with
        | none => .nan
        | some (m, rest) => .num (m * (10 : ℚ) ^ parseExponent rest)

/-! ## Data model and the storage collaborator -/

/-- A persisted product (`src/models/Product.ts`); the opaque ObjectId is a
string token, timestamps are abstract ticks. -/
structure StoredProduct where
  id : String
  name : String
  price : ℚ
  category : String
  createdAt : ℕ
  updatedAt : ℕ
deriving DecidableEq, Repr

/-- `ApiError` (`src/types/error.types.ts`): message plus HTTP status. -/
structure ApiError where
  message : String
  status : ℕ
deriving DecidableEq, Repr

/-- Raw query parameters of a list request
(`ProductQueryParams`, `src/types/product.types.ts`). -/
structure ProductQueryParams where
  page : Option String := none
  limit : Option String := none
  category : Option String := none
  minPrice : Option String := none
  maxPrice : Option String := none
deriving DecidableEq, Repr

/-- JavaScript truthiness of an optional string: absent and `""` are falsy. -/
def truthyStr : Option String → Bool
  | none => false
  | some s => s ≠ ""

/-- JavaScript `x || d` on an optional string parameter. -/
def strOr (x : Option String) (d : String) : String :=
  match x with
  | none => d
  | some s => if s = "" then d else s

/-- The `price` component of the Mongo filter built by `getProducts`. -/
structure PriceFilter where
  gte : Option JSNum := none
  lte : Option JSNum := none
deriving DecidableEq, Repr

/-- The filter object built by `getProducts`
(`src/controllers/productController.ts`, lines 64-90). -/
structure ProductFilter where
  category : Option String := none
  price : Option PriceFilter := none
deriving DecidableEq, Repr

/-- Does a stored price satisfy the range constraints?  (MongoDB `$gte`/`$lte`
on numbers; the bounds reaching a filter are never NaN.) -/
def priceMatches (pf : PriceFilter) (p : ℚ) : Bool :=
  (match pf.gte with | none => true | some b => jsLe b (.num p)) &&
  (match pf.lte with | none => true | some b => jsLe (.num p) b)

/-- Does a stored record match the filter predicate? -/
def matchesFilter (f : ProductFilter) (r : StoredProduct) : Bool :=
  (match f.category with | none => true | some c => r.category = c) &&
  (match f.price with | none => true | some pf => priceMatches pf r.price)

/-- `Product.countDocuments(filter)`. -/
def countDocuments (store : List StoredProduct) (f : ProductFilter) : ℕ :=
  (store.filter (matchesFilter f)).length

/-- `Product.find(filter).sort(createdAt desc).skip(skip).limit(limit)`. -/
def findSorted (store : List StoredProduct) (f : ProductFilter) (skip lim : ℕ) :
    List StoredProduct :=
  ((((store.filter (matchesFilter f)).insertionSort
      (fun a b => b.createdAt ≤ a.createdAt)).drop skip).take lim)

/-- `Product.findById(id)` (first record with the given id). -/
def findById : List StoredProduct → String → Option StoredProduct
  | [], _ => none
  | r :: rest, id => if r.id = id then some r else findById rest id

/-! ## Input normalization and filter building (`getProducts`, lines 60-90) -/

/-- Line 60: `Math.max(1, parseInt(req.query.page || '1'))`. -/
def requestedPageOf (q : ProductQueryParams) : JSNum :=
  jsMax (.num 1) (parseIntJS (strOr q.page "1"))

/-- Line 61: `Math.min(100, Math.max(1, parseInt(req.query.limit || '10')))`. -/
def limitOf (q : ProductQueryParams) : JSNum :=
  jsMin (.num 100) (jsMax (.num 1) (parseIntJS (strOr q.limit "10")))

/-- Lines 73-79: the `$gte` bound, when a `minPrice` parameter is truthy. -/
def minPriceCheck (q : ProductQueryParams) : Except ApiError (Option JSNum) :=
  if truthyStr q.minPrice then
    let m := parseFloatJS (strOr q.minPrice "")
    if jsIsNaN m || jsLt m (.num 0) then
      .error ⟨"minPrice must be a valid positive number", 400⟩
    else .ok (some m)
  else .ok none

/-- Lines 81-87: the `$lte` bound, when a `maxPrice` parameter is truthy. -/
def maxPriceCheck (q : ProductQueryParams) : Except ApiError (Option JSNum) :=
  if truthyStr q.maxPrice then
    let m := parseFloatJS (strOr q.maxPrice "")
    if jsIsNaN m || jsLt m (.num 0) then
      .error ⟨"maxPrice must be a valid positive number", 400⟩
    else .ok (some m)
  else .ok none

/-- Lines 64-90: build the filter; invalid price bounds throw `ApiError 400`
(the `minPrice` check runs first). -/
def buildFilter (q : ProductQueryParams) : Except ApiError ProductFilter :=
  let catF : Option String :=
    match q.category with
    | some s => if s = "" then none else some s.trim
    | none => none
  if truthyStr q.minPrice || truthyStr q.maxPrice then
    match minPriceCheck q with
    | .error e => .error e
    | .ok gteB =>
      match maxPriceCheck q with
      | .error e => .error e
      | .ok lteB => .ok ⟨catF, some ⟨gteB, lteB⟩⟩
  else .ok ⟨catF, none⟩

/-! ## Pagination resolver and list endpoint (`getProducts`, lines 93-112) -/

/-- The pagination envelope (`PaginatedResponse`). -/
structure PaginatedResponse where
  data : List StoredProduct
  total : ℕ
  page : ℕ
  pages : ℕ
deriving DecidableEq, Repr

/-- Result of a list request.  When the computed skip or limit is NaN (a
non-numeric `page`/`limit` parameter), the NaN is handed to the storage
driver, whose behavior is outside this repository; that outcome is recorded
symbolically together with the NaN-poisoned pagination values. -/
inductive ListResult where
  | envelope : PaginatedResponse → ListResult
  | storageDependent : JSNum → JSNum → JSNum → JSNum → ListResult
deriving DecidableEq, Repr

/-- Extract a natural number from a JS value that is a nonnegative integer. -/
def jsToNat : JSNum → Option ℕ
  | .num q => if 0 ≤ q.num ∧ q.den = 1 then some q.num.toNat else none
  | _ => none

/-- `getProducts` (lines 54-116): count, pagination math, bounded fetch. -/
def getProducts (q : ProductQueryParams) (store : List StoredProduct) :
    Except ApiError ListResult :=
  match buildFilter q with
  | .error e => .error e
  | .ok f =>
    let total := countDocuments store f
    let lim := limitOf q
    let pages := jsMax (.num 1) (jsCeil (jsDiv (.num (total : ℚ)) lim))
    let page := jsMin (requestedPageOf q) pages
    let skip := jsMul (jsSub page (.num 1)) lim
    match jsToNat skip, jsToNat lim, jsToNat page, jsToNat pages with
    | some sk, some li, some pg, some pgs =>
        .ok (.envelope { data := findSorted store f sk li, total := total,
                         page := pg, pages := pgs })
    | _, _, _, _ => .ok (.storageDependent page lim skip pages)

/-! ## Mutation validation (`src/middleware/validation.ts`) and mutations -/

/-- A loosely-typed JSON value as it arrives in a request body. -/
inductive JSVal where
  | str : String → JSVal
  | num : JSNum → JSVal
  | other : JSVal
deriving DecidableEq, Repr

/-- Raw request body for create/update: each field present or absent. -/
structure ProductBody where
  name : Option JSVal := none
  price : Option JSVal := none
  category : Option JSVal := none
deriving DecidableEq, Repr

/-- HTTP method, as inspected by the validator. -/
inductive Method where
  | POST
  | PATCH
deriving DecidableEq, Repr

/-- Lines 13-18: for PATCH, delete fields equal to `''` (name, category)
or `0` (price) so they read as not provided. -/
def normalizePatch (b : ProductBody) : ProductBody :=
  { name := if b.name = some (.str "") then none else b.name,
    price := if b.price = some (.num (.num 0)) then none else b.price,
    category := if b.category = some (.str "") then none else b.category }

/-- Lines 25-34: name checks (note: the 200-character bound is checked on the
raw, untrimmed string). -/
def checkName (v : Option JSVal) (isPost : Bool) : List String :=
  match v with
  | some (.str s) =>
      if s.trim.length = 0 then ["Name must be a non-empty string"]
      else if s.length > 200 then ["Name cannot exceed 200 characters"]
      else []
  | some _ => ["Name must be a non-empty string"]
  | none => if isPost then ["Name is required"] else []

/-- Lines 37-45: price checks. -/
def checkPrice (v : Option JSVal) (isPost : Bool) : List String :=
  match v with
  | some (.num n) =>
      if !jsIsFinite n then ["Price must be a valid number"]
      else if jsLe n (.num 0) then ["Price must be greater than 0"]
      else []
  | some _ => ["Price must be a valid number"]
  | none => if isPost then ["Price is required"] else []

/-- Lines 48-56: category checks (100-character bound on the raw string). -/
def checkCategory (v : Option JSVal) (isPost : Bool) : List String :=
  match v with
  | some (.str s) =>
      if s.trim.length = 0 then ["Category must be a non-empty string"]
      else if s.length > 100 then ["Category cannot exceed 100 characters"]
      else []
  | some _ => ["Category must be a non-empty string"]
  | none => if isPost then ["Category is required"] else []

/-- `validateProductInput` (lines 7-68): PATCH normalization, per-field
checks, the at-least-one-field rule, aggregated error message. -/
def validateProductInput (m : Method) (b0 : ProductBody) : Except ApiError ProductBody :=
  let b := if m = .PATCH then normalizePatch b0 else b0
  let errors :=
    checkName b.name (m = .POST) ++ checkPrice b.price (m = .POST) ++
    checkCategory b.category (m = .POST) ++
    (if m = .PATCH ∧ b.name = none ∧ b.price = none ∧ b.category = none then
      ["At least one field (name, price, or category) must be provided with a valid value"]
    else [])
  if errors.length > 0 then .error ⟨String.intercalate ", " errors, 400⟩
  else .ok b

/-- Hex digit, upper or lower case. -/
def isHexChar (c : Char) : Bool :=
  c.isDigit || ('a' ≤ c && c ≤ 'f') || ('A' ≤ c && c ≤ 'F')

/-- The ObjectId shape: exactly 24 hex characters (lines 78-79). -/
def isValidObjectId (s : String) : Bool :=
  s.length = 24 && s.toList.all isHexChar

/-- `validateObjectId` (lines 71-86). -/
def validateObjectId (id : String) : Except ApiError Unit :=
  if isValidObjectId id then .ok () else .error ⟨"Invalid product ID format", 400⟩

/-- `getProductById` controller body (lines 136-143). -/
def getProductById (store : List StoredProduct) (id : String) :
    Except ApiError StoredProduct :=
  match findById store id with
  | none => .error ⟨"Product not found", 404⟩
  | some p => .ok p

/-- Route `GET /:id` (`src/routes/productRoutes.ts`): id validation gates the
controller; a malformed id never reaches the store. -/
def getByIdRoute (store : List StoredProduct) (id : String) :
    Except ApiError StoredProduct :=
  match validateObjectId id with
  | .error e => .error e
  | .ok _ => getProductById store id

/-- The update object the controller builds (lines 175-186): only fields that
were sent, strings trimmed.  (After validation a present name/category is
always a string and a present price a finite number.) -/
structure ProductUpdates where
  name : Option String := none
  price : Option ℚ := none
  category : Option String := none
deriving DecidableEq, Repr

/-- Lines 177-186 of the controller. -/
def updatesOf (b : ProductBody) : ProductUpdates :=
  { name := match b.name with | some (.str s) => some s.trim | _ => none,
    price := match b.price with | some (.num (.num a)) => some a | _ => none,
    category := match b.category with | some (.str s) => some s.trim | _ => none }

/-- Apply an update document to a record: only the supplied paths change
(schema setters trim updated strings), and the `timestamps` option refreshes
`updatedAt` on the write. -/
def applyUpdates (r : StoredProduct) (u : ProductUpdates) (now : ℕ) : StoredProduct :=
  { r with
    name := match u.name with | some s => s.trim | none => r.name,
    price := u.price.getD r.price,
    category := match u.category with | some s => s.trim | none => r.category,
    updatedAt := now }

/-- Schema-level validation of a record (`src/models/Product.ts`): trimmed
name 1-200 characters, price ≥ 0.01 and positive, trimmed category 1-100
characters.  `runValidators: true` re-checks the record on update. -/
def schemaValidatesProduct (name : String) (price : ℚ) (category : String) : Bool :=
  1 ≤ name.trim.length && name.trim.length ≤ 200 &&
  ((1 : ℚ)/100 ≤ price && 0 < price) &&
  (1 ≤ category.trim.length && category.trim.length ≤ 100)

/-- Replace the record with the given id (ids are unique in a real store;
the model replaces the first match). -/
def replaceById : List StoredProduct → String → StoredProduct → List StoredProduct
  | [], _, _ => []
  | r :: rest, id, r' => if r.id = id then r' :: rest else r :: replaceById rest id r'

/-- `updateProduct` controller body (lines 169-209):
`findByIdAndUpdate(id, updates, {new: true, runValidators: true})`; a failing
schema validation surfaces through the error handler as a 500. -/
def updateProduct (store : List StoredProduct) (id : String) (b : ProductBody)
    (now : ℕ) : Except ApiError StoredProduct × List StoredProduct :=
  let u := updatesOf b
  match findById store id with
  | none => (.error ⟨"Product not found", 404⟩, store)
  | some r =>
      let r' := applyUpdates r u now
      if schemaValidatesProduct r'.name r'.price r'.category then
        (.ok r', replaceById store id r')
      else
        (.error ⟨"Validation failed", 500⟩, store)

/-- Route `PATCH /:id`: id validation, then input validation, then the
controller; the store is untouched on any validation failure. -/
def patchRoute (store : List StoredProduct) (id : String) (b : ProductBody)
    (now : ℕ) : Except ApiError StoredProduct × List StoredProduct :=
  match validateObjectId id with
  | .error e => (.error e, store)
  | .ok _ =>
    match validateProductInput .PATCH b with
    | .error e => (.error e, store)
    | .ok b' => updateProduct store id b' now

/-- `Product.findByIdAndDelete(id)`: remove the first record with the id. -/
def deleteById : List StoredProduct → String → Option StoredProduct × List StoredProduct
  | [], _ => (none, [])
  | r :: rest, id =>
      if r.id = id then (some r, rest)
      else
        let (res, rest') := deleteById rest id
        (res, r :: rest')

/-- `deleteProduct` controller body (lines 224-245). -/
def deleteProduct (store : List StoredProduct) (id : String) :
    Except ApiError Unit × List StoredProduct :=
  match deleteById store id with
  | (none, _) => (.error ⟨"Product not found", 404⟩, store)
  | (some _, store') => (.ok (), store')

/-- Route `DELETE /:id`: id validation gates the controller. -/
def deleteRoute (store : List StoredProduct) (id : String) :
    Except ApiError Unit × List StoredProduct :=
  match validateObjectId id with
  | .error e => (.error e, store)
  | .ok _ => deleteProduct store id

/-- Equality of request outcomes is decidable. -/
instance exceptDecEq {e a : Type} [DecidableEq e] [DecidableEq a] :
    DecidableEq (Except e a)
  | .error x, .error y =>
      if h : x = y then .isTrue (by rw [h])
      else .isFalse (fun hc => by injection hc; contradiction)
  | .error _, .ok _ => .isFalse (fun hc => Except.noConfusion hc)
  | .ok _, .error _ => .isFalse (fun hc => Except.noConfusion hc)
  | .ok x, .ok y =>
      if h : x = y then .isTrue (by rw [h])
      else .isFalse (fun hc => by injection hc; contradiction)

/-- Integer value of the clamped limit: `min 100 (max 1 lz)`. -/
def effLimitZ (lz : ℤ) : ℤ := min 100 (max 1 lz)

/-- Integer value of the floored requested page: `max 1 pz`. -/
def reqPageZ (pz : ℤ) : ℤ := max 1 pz

/-- Integer page count: `max 1 (ceil (total / limit))`. -/
def pagesZ (total : ℕ) (L : ℤ) : ℤ := max 1 (Int.ceil ((total : ℚ) / (L : ℚ)))

/-- The envelope `getProducts` returns once `page` and `limit` parse to the
integers `pz` and `lz`. -/
def envelopeN (store : List StoredProduct) (f : ProductFilter) (pz lz : ℤ) :
    PaginatedResponse :=
  let total := countDocuments store f
  let L := effLimitZ lz
  let pgs := pagesZ total L
  let pg := min (reqPageZ pz) pgs
  { data := findSorted store f ((pg - 1) * L).toNat L.toNat,
    total := total, page := pg.toNat, pages := pgs.toNat }

/-- Sample records used by concrete witnesses. -/
def sampleA : StoredProduct :=
  ⟨"0123456789abcdef01234567", "Widget", 100, "Electronics", 1, 1⟩

def sampleB : StoredProduct :=
  ⟨"0123456789abcdef01234568", "Gadget", 200, "Electronics", 2, 2⟩

def sampleC : StoredProduct :=
  ⟨"0123456789abcdef01234569", "Book", 150, "Books", 3, 3⟩

def sampleStore : List StoredProduct := [sampleA, sampleB, sampleC]

/-! ## Evaluation lemmas for the pagination arithmetic -/

theorem jsMax_num (a b : ℚ) : jsMax (.num a) (.num b) = .num (max a b) := rfl

theorem jsMin_num (a b : ℚ) : jsMin (.num a) (.num b) = .num (min a b) := rfl

theorem jsSub_num (a b : ℚ) : jsSub (.num a) (.num b) = .num (a - b) := rfl

theorem jsMul_num (a b : ℚ) : jsMul (.num a) (.num b) = .num (a * b) := rfl

theorem jsCeil_num (a : ℚ) : jsCeil (.num a) = .num ((Int.ceil a : ℤ) : ℚ) := rfl

theorem jsDiv_num (a b : ℚ) (hb : b ≠ 0) : jsDiv (.num a) (.num b) = .num (a / b) := by
  simp [jsDiv, hb]

theorem jsToNat_intCast (z : ℤ) (hz : 0 ≤ z) : jsToNat (.num (z : ℚ)) = some z.toNat := by
  simp [jsToNat, hz]

theorem one_le_effLimitZ (lz : ℤ) : 1 ≤ effLimitZ lz := by
  unfold effLimitZ; omega

theorem effLimitZ_le_100 (lz : ℤ) : effLimitZ lz ≤ 100 := by
  unfold effLimitZ; omega

theorem one_le_reqPageZ (pz : ℤ) : 1 ≤ reqPageZ pz := by
  unfold reqPageZ; omega

theorem one_le_pagesZ (total : ℕ) (L : ℤ) : 1 ≤ pagesZ total L := by
  unfold pagesZ; omega

/-- Master evaluation: with a successfully built filter and numeric `page`
and `limit` parameters, `getProducts` returns exactly `envelopeN`. -/
theorem getProducts_eval (q : ProductQueryParams) (store : List StoredProduct)
    (f : ProductFilter) (pz lz : ℤ)
    (hf : buildFilter q = .ok f)
    (hp : parseIntJS (strOr q.page "1") = .num (pz : ℚ))
    (hl : parseIntJS (strOr q.limit "10") = .num (lz : ℚ)) :
    getProducts q store = .ok (.envelope (envelopeN store f pz lz)) := by
  have hL1 : (1 : ℤ) ≤ effLimitZ lz := one_le_effLimitZ lz
  have hLq : limitOf q = .num ((effLimitZ lz : ℤ) : ℚ) := by
    rw [limitOf, hl]
    simp only [jsMax_num, jsMin_num]
    congr 1
    unfold effLimitZ
    push_cast
    ring
  have hPq : requestedPageOf q = .num ((reqPageZ pz : ℤ) : ℚ) := by
    rw [requestedPageOf, hp]
    simp only [jsMax_num]
    congr 1
    unfold reqPageZ
    push_cast
    ring
  have hLne : ((effLimitZ lz : ℤ) : ℚ) ≠ 0 := by
    exact_mod_cast (by omega : (effLimitZ lz : ℤ) ≠ 0)
  set total := countDocuments store f with htotal
  have hPGq : jsMax (.num 1) (jsCeil (jsDiv (.num ((total : ℕ) : ℚ)) (limitOf q)))
      = .num ((pagesZ total (effLimitZ lz) : ℤ) : ℚ) := by
    rw [hLq, jsDiv_num _ _ hLne]
    simp only [jsCeil_num, jsMax_num]
    congr 1
    unfold pagesZ
    push_cast
    ring
  have hPageq : jsMin (requestedPageOf q)
      (.num ((pagesZ total (effLimitZ lz) : ℤ) : ℚ))
      = .num ((min (reqPageZ pz) (pagesZ total (effLimitZ lz)) : ℤ) : ℚ) := by
    rw [hPq]
    simp only [jsMin_num]
    congr 1
    push_cast
    ring
  set pgsZ := pagesZ total (effLimitZ lz) with hpgs
  set pgZ := min (reqPageZ pz) pgsZ with hpg
  have hpg1 : 1 ≤ pgZ := by
    have := one_le_reqPageZ pz
    have := one_le_pagesZ total (effLimitZ lz)
    omega
  have hSkipq : jsMul (jsSub (.num ((pgZ : ℤ) : ℚ)) (.num 1))
      (.num ((effLimitZ lz : ℤ) : ℚ))
      = .num (((pgZ - 1) * effLimitZ lz : ℤ) : ℚ) := by
    simp only [jsSub_num, jsMul_num]
    congr 1
    push_cast
    ring
  have hskip0 : (0 : ℤ) ≤ (pgZ - 1) * effLimitZ lz :=
    mul_nonneg (by omega) (by omega)
  unfold getProducts
  rw [hf]
  dsimp only
  rw [← htotal, hPGq, hPageq, hLq, hSkipq,
    jsToNat_intCast _ hskip0, jsToNat_intCast _ (by omega : (0:ℤ) ≤ effLimitZ lz),
    jsToNat_intCast _ (by omega : (0:ℤ) ≤ pgZ),
    jsToNat_intCast _ (by omega : (0:ℤ) ≤ pgsZ)]
  rfl

theorem int_toNat_mul (a b : ℤ) (ha : 0 ≤ a) (hb : 0 ≤ b) :
    (a * b).toNat = a.toNat * b.toNat := by
  lift a to ℕ using ha
  lift b to ℕ using hb
  rw [← Nat.cast_mul, Int.toNat_natCast, Int.toNat_natCast, Int.toNat_natCast]

theorem pagesZ_toNat (total : ℕ) (L : ℤ) (hL : 1 ≤ L) :
    (pagesZ total L).toNat = max 1 (Nat.ceil ((total : ℚ) / (L.toNat : ℚ))) := by
  have hcast : ((L.toNat : ℕ) : ℚ) = ((L : ℤ) : ℚ) := by
    exact_mod_cast congrArg (fun z : ℤ => (z : ℚ)) (Int.toNat_of_nonneg (by omega))
  rw [hcast]
  unfold pagesZ
  rw [← Int.ceil_toNat ((total : ℚ) / ((L : ℤ) : ℚ))]
  omega

theorem pagesZ_of_total_zero (L : ℤ) : pagesZ 0 L = 1 := by
  unfold pagesZ
  rw [Nat.cast_zero, zero_div, Int.ceil_zero]
  omega

/-- C1: for every list request with a valid numeric page and limit, the
pagination resolver computes `pages = max(1, ceil(total / limit))`, effective
`page = min(requestedPage, pages)` and `skip = (page - 1) * limit`, and in
the returned envelope `records.length <= limit`, `page` lies in `[1, pages]`,
and `total == 0` forces `pages == 1`, `page == 1` and an empty record list. -/
theorem c1_pagination_envelope (q : ProductQueryParams) (store : List StoredProduct)
    (pz lz : ℤ) (r : ListResult)
    (hp : parseIntJS (strOr q.page "1") = .num (pz : ℚ))
    (hl : parseIntJS (strOr q.limit "10") = .num (lz : ℚ))
    (h : getProducts q store = .ok r) :
    ∃ env : PaginatedResponse, r = .envelope env ∧
      env.pages = max 1 (Nat.ceil ((env.total : ℚ) / ((effLimitZ lz).toNat : ℚ))) ∧
      env.page = min (reqPageZ pz).toNat env.pages ∧
      (∃ f, buildFilter q = .ok f ∧
        env.data = findSorted store f ((env.page - 1) * (effLimitZ lz).toNat)
          (effLimitZ lz).toNat) ∧
      env.data.length ≤ (effLimitZ lz).toNat ∧
      1 ≤ env.page ∧ env.page ≤ env.pages ∧
      (env.total = 0 → env.pages = 1 ∧ env.page = 1 ∧ env.data = []) := by
  rcases hbf : buildFilter q with e | f
  · unfold getProducts at h
    rw [hbf] at h
    exact Except.noConfusion h
  have heval := getProducts_eval q store f pz lz hbf hp hl
  rw [heval] at h
  refine ⟨envelopeN store f pz lz, by injection h with h1; exact h1.symm, ?_, ?_, ?_, ?_, ?_, ?_, ?_⟩
  all_goals
    set T := countDocuments store f with hT
    set L := effLimitZ lz with hLdef
    have hL1 : 1 ≤ L := one_le_effLimitZ lz
    set PGS := pagesZ T L with hPGS
    have hPGS1 : 1 ≤ PGS := one_le_pagesZ T L
    have hRP1 : 1 ≤ reqPageZ pz := one_le_reqPageZ pz
    set PG := min (reqPageZ pz) PGS with hPG
    have hPG1 : 1 ≤ PG := by omega
  · show PGS.toNat = max 1 (Nat.ceil ((T : ℚ) / (L.toNat : ℚ)))
    rw [hPGS, pagesZ_toNat T L hL1]
  · show PG.toNat = min (reqPageZ pz).toNat PGS.toNat
    omega
  · refine ⟨f, rfl, ?_⟩
    show findSorted store f ((PG - 1) * L).toNat L.toNat
        = findSorted store f ((PG.toNat - 1) * L.toNat) L.toNat
    have hmul : ((PG - 1) * L).toNat = (PG.toNat - 1) * L.toNat := by
      rw [int_toNat_mul (PG - 1) L (by omega) (by omega)]
      congr 1
      omega
    rw [hmul]
  · show (findSorted store f ((PG - 1) * L).toNat L.toNat).length ≤ L.toNat
    unfold findSorted
    rw [List.length_take]
    exact min_le_left _ _
  · show 1 ≤ PG.toNat
    omega
  · show PG.toNat ≤ PGS.toNat
    omega
  · intro h0
    have hT0 : T = 0 := h0
    have hPGSv : PGS = 1 := by rw [hPGS, hT0]; exact pagesZ_of_total_zero L
    have hPGv : PG = 1 := by omega
    refine ⟨?_, ?_, ?_⟩
    · show PGS.toNat = 1
      omega
    · show PG.toNat = 1
      omega
    show findSorted store f ((PG - 1) * L).toNat L.toNat = []
    have hfe : store.filter (matchesFilter f) = [] := by
      have : (store.filter (matchesFilter f)).length = 0 := hT0
      exact List.length_eq_zero.mp this
    unfold findSorted
    rw [hfe]
    simp

/-- C1 witness: the concrete request `page=2&limit=2` over a three-record
store exercises the pagination law. -/
theorem c1_pagination_envelope_witness :
    ∃ env : PaginatedResponse,
      (ListResult.envelope { data := [sampleA], total := 3, page := 2, pages := 2 })
        = .envelope env ∧
      env.pages = max 1 (Nat.ceil ((env.total : ℚ) / ((effLimitZ 2).toNat : ℚ))) ∧
      env.page = min (reqPageZ 2).toNat env.pages ∧
      (∃ f, buildFilter ⟨some "2", some "2", none, none, none⟩ = .ok f ∧
        env.data = findSorted sampleStore f ((env.page - 1) * (effLimitZ 2).toNat)
          (effLimitZ 2).toNat) ∧
      env.data.length ≤ (effLimitZ 2).toNat ∧
      1 ≤ env.page ∧ env.page ≤ env.pages ∧
      (env.total = 0 → env.pages = 1 ∧ env.page = 1 ∧ env.data = []) :=
  c1_pagination_envelope ⟨some "2", some "2", none, none, none⟩ sampleStore 2 2
    (.envelope { data := [sampleA], total := 3, page := 2, pages := 2 })
    (by with_unfolding_all rfl) (by with_unfolding_all rfl) (by with_unfolding_all rfl)

/-- C2: in a partial update, a name or category supplied as `""` or a price
supplied as `0` is treated exactly as an omitted field, and if nothing
remains after this normalization the request fails with a validation error
and the stored record is left unmodified. -/
theorem c2_patch_empty_equals_omitted (b : ProductBody) (store : List StoredProduct)
    (id : String) (now : ℕ) :
    validateProductInput .PATCH { b with name := some (.str "") }
      = validateProductInput .PATCH { b with name := none } ∧
    validateProductInput .PATCH { b with category := some (.str "") }
      = validateProductInput .PATCH { b with category := none } ∧
    validateProductInput .PATCH { b with price := some (.num (.num 0)) }
      = validateProductInput .PATCH { b with price := none } ∧
    (normalizePatch b = { name := none, price := none, category := none } →
      validateProductInput .PATCH b =
        .error ⟨"At least one field (name, price, or category) must be provided with a valid value", 400⟩ ∧
      (patchRoute store id b now).2 = store) := by
  refine ⟨?_, ?_, ?_, ?_⟩
  · simp [validateProductInput, normalizePatch]
  · simp [validateProductInput, normalizePatch]
  · simp [validateProductInput, normalizePatch]
  · intro hn
    have hval : validateProductInput .PATCH b =
        .error ⟨"At least one field (name, price, or category) must be provided with a valid value", 400⟩ := by
      unfold validateProductInput
      rw [if_pos rfl, hn]
      simp only [checkName, checkPrice, checkCategory]
      norm_num
      rfl
    refine ⟨hval, ?_⟩
    unfold patchRoute
    unfold validateObjectId
    by_cases hid : isValidObjectId id
    · rw [if_pos hid, hval]
    · rw [if_neg hid]

/-- C2 witness: a body carrying only `name = ""` and `price = 0` normalizes
to the empty update, is rejected, and leaves the store unchanged. -/
theorem c2_patch_empty_equals_omitted_witness :
    normalizePatch ⟨some (.str ""), some (.num (.num 0)), none⟩
      = { name := none, price := none, category := none } ∧
    (validateProductInput .PATCH ⟨some (.str ""), some (.num (.num 0)), none⟩ =
      .error ⟨"At least one field (name, price, or category) must be provided with a valid value", 400⟩ ∧
     (patchRoute sampleStore "0123456789abcdef01234567"
        ⟨some (.str ""), some (.num (.num 0)), none⟩ 7).2 = sampleStore) :=
  ⟨by with_unfolding_all rfl,
   (c2_patch_empty_equals_omitted ⟨some (.str ""), some (.num (.num 0)), none⟩
      sampleStore "0123456789abcdef01234567" 7).2.2.2 (by with_unfolding_all rfl)⟩

theorem jsMax_nan_right (a : JSNum) : jsMax a .nan = .nan := by cases a <;> rfl

theorem jsMin_nan_right (a : JSNum) : jsMin a .nan = .nan := by cases a <;> rfl

theorem jsDiv_nan_right (a : JSNum) : jsDiv a .nan = .nan := by cases a <;> rfl

theorem jsMul_nan_right (a : JSNum) : jsMul a .nan = .nan := by cases a <;> rfl

theorem jsMin_nan_left (b : JSNum) : jsMin .nan b = .nan := by cases b <;> rfl

theorem jsSub_nan_left (b : JSNum) : jsSub .nan b = .nan := by cases b <;> rfl

theorem jsMul_nan_left (b : JSNum) : jsMul .nan b = .nan := by cases b <;> rfl

/-- C3 counterexample: the request `page=abc` is not treated as the default
page 1 — `parseInt` gives NaN, the effective page is NaN, and the outcome
differs from the default request on the same store. -/
theorem c3_nonnumeric_page_counterexample :
    requestedPageOf ⟨some "abc", none, none, none, none⟩ = .nan ∧
    requestedPageOf ⟨none, none, none, none, none⟩ = .num 1 ∧
    getProducts ⟨some "abc", none, none, none, none⟩ sampleStore
      ≠ getProducts ⟨none, none, none, none, none⟩ sampleStore := by
  refine ⟨by with_unfolding_all rfl, by with_unfolding_all rfl, ?_⟩
  have h1 : getProducts ⟨some "abc", none, none, none, none⟩ sampleStore
      = .ok (.storageDependent .nan (.num 10) .nan (.num 1)) := by
    with_unfolding_all rfl
  have h2 : getProducts ⟨none, none, none, none, none⟩ sampleStore
      = .ok (.envelope ⟨[sampleC, sampleB, sampleA], 3, 1, 1⟩) := by
    with_unfolding_all rfl
  rw [h1, h2]
  intro hc
  injection hc with hc1
  exact ListResult.noConfusion hc1

/-- C3 amended: an absent or empty page/limit parameter receives the default
(1 resp. 10, with numeric values clamped), but a non-numeric page or limit is
NOT treated as the default: `parseInt` yields NaN, which poisons the
effective page, limit, skip and pages, and the resulting query is
NaN-poisoned rather than identical to the default request. -/
theorem c3_nonnumeric_page_amended (q : ProductQueryParams) (store : List StoredProduct)
    (f : ProductFilter) (hf : buildFilter q = .ok f) :
    ((q.page = none ∨ q.page = some "") → requestedPageOf q = .num 1) ∧
    ((q.limit = none ∨ q.limit = some "") → limitOf q = .num 10) ∧
    (parseIntJS (strOr q.page "1") = .nan →
      requestedPageOf q = .nan ∧
      getProducts q store = .ok (.storageDependent .nan (limitOf q) .nan
        (jsMax (.num 1)
          (jsCeil (jsDiv (.num ((countDocuments store f : ℕ) : ℚ)) (limitOf q)))))) ∧
    (parseIntJS (strOr q.limit "10") = .nan →
      limitOf q = .nan ∧
      getProducts q store = .ok (.storageDependent .nan .nan .nan .nan)) := by
  refine ⟨?_, ?_, ?_, ?_⟩
  · intro hcase
    have : strOr q.page "1" = "1" := by
      rcases hcase with hc | hc <;> rw [hc] <;> rfl
    rw [requestedPageOf, this]
    with_unfolding_all rfl
  · intro hcase
    have : strOr q.limit "10" = "10" := by
      rcases hcase with hc | hc <;> rw [hc] <;> rfl
    rw [limitOf, this]
    with_unfolding_all rfl
  · intro hp
    have hreq : requestedPageOf q = .nan := by
      rw [requestedPageOf, hp, jsMax_nan_right]
    refine ⟨hreq, ?_⟩
    unfold getProducts
    rw [hf]
    dsimp only
    rw [hreq, jsMin_nan_left, jsSub_nan_left, jsMul_nan_left]
    rcases jsToNat (limitOf q) with _ | li <;>
      rcases jsToNat (jsMax (JSNum.num 1)
        (jsCeil (jsDiv (JSNum.num ((countDocuments store f : ℕ) : ℚ)) (limitOf q)))) with _ | pgs <;>
      rfl
  · intro hl
    have hlim : limitOf q = .nan := by
      rw [limitOf, hl, jsMax_nan_right, jsMin_nan_right]
    refine ⟨hlim, ?_⟩
    unfold getProducts
    rw [hf]
    dsimp only
    rw [hlim, jsDiv_nan_right]
    have e1 : jsCeil JSNum.nan = JSNum.nan := rfl
    have e2 : jsMax (JSNum.num 1) JSNum.nan = JSNum.nan := jsMax_nan_right _
    have e3 : jsMin (requestedPageOf q) JSNum.nan = JSNum.nan := jsMin_nan_right _
    have e4 : jsSub JSNum.nan (JSNum.num 1) = JSNum.nan := rfl
    have e5 : jsMul JSNum.nan JSNum.nan = JSNum.nan := rfl
    rw [e1, e2, e3, e4, e5]
    rfl

/-- C3 witness: `page=abc` concretely yields the NaN-poisoned outcome. -/
theorem c3_nonnumeric_page_amended_witness :
    requestedPageOf ⟨some "abc", none, none, none, none⟩ = .nan ∧
    getProducts ⟨some "abc", none, none, none, none⟩ sampleStore
      = .ok (.storageDependent .nan (limitOf ⟨some "abc", none, none, none, none⟩) .nan
          (jsMax (.num 1) (jsCeil (jsDiv
            (.num ((countDocuments sampleStore ⟨none, none⟩ : ℕ) : ℚ))
            (limitOf ⟨some "abc", none, none, none, none⟩))))) :=
  (c3_nonnumeric_page_amended ⟨some "abc", none, none, none, none⟩ sampleStore ⟨none, none⟩
    (by with_unfolding_all rfl)).2.2.1 (by with_unfolding_all rfl)

theorem deleteById_of_not_found (store : List StoredProduct) (id : String)
    (h : findById store id = none) : deleteById store id = (none, store) := by
  induction store with
  | nil => rfl
  | cons r rest ih =>
      unfold findById at h
      by_cases hr : r.id = id
      · rw [if_pos hr] at h
        exact Option.noConfusion h
      · rw [if_neg hr] at h
        unfold deleteById
        rw [if_neg hr, ih h]

/-- C4: for read, update and delete, a malformed identifier is rejected with
a 400 validation error before any storage lookup (the outcome is the same for
every store, and the store is untouched), while a well-formed identifier that
matches no record yields the distinct 404 not-found outcome. -/
theorem c4_malformed_id_gate (id : String) :
    (isValidObjectId id = false →
      ∀ (store : List StoredProduct) (b : ProductBody) (now : ℕ),
        getByIdRoute store id = .error ⟨"Invalid product ID format", 400⟩ ∧
        patchRoute store id b now = (.error ⟨"Invalid product ID format", 400⟩, store) ∧
        deleteRoute store id = (.error ⟨"Invalid product ID format", 400⟩, store)) ∧
    (isValidObjectId id = true →
      ∀ store : List StoredProduct, findById store id = none →
        getByIdRoute store id = .error ⟨"Product not found", 404⟩ ∧
        deleteRoute store id = (.error ⟨"Product not found", 404⟩, store) ∧
        ∀ (b b' : ProductBody) (now : ℕ), validateProductInput .PATCH b = .ok b' →
          patchRoute store id b now = (.error ⟨"Product not found", 404⟩, store)) ∧
    (⟨"Invalid product ID format", 400⟩ : ApiError) ≠ ⟨"Product not found", 404⟩ := by
  refine ⟨?_, ?_, by decide⟩
  · intro hbad store b now
    have hv : validateObjectId id = .error ⟨"Invalid product ID format", 400⟩ := by
      simp [validateObjectId, hbad]
    refine ⟨?_, ?_, ?_⟩ <;> simp [getByIdRoute, patchRoute, deleteRoute, hv]
  · intro hgood store habsent
    have hv : validateObjectId id = .ok () := by
      simp [validateObjectId, hgood]
    refine ⟨?_, ?_, ?_⟩
    · simp [getByIdRoute, hv, getProductById, habsent]
    · simp [deleteRoute, hv, deleteProduct, deleteById_of_not_found store id habsent]
    · intro b b' now hb
      simp [patchRoute, hv, hb, updateProduct, habsent]

/-- C4 witness: `not-a-valid-id!!!` is rejected with 400 on every route, and
a well-formed absent id yields 404, over the concrete sample store. -/
theorem c4_malformed_id_gate_witness :
    (getByIdRoute sampleStore "not-a-valid-id!!!" = .error ⟨"Invalid product ID format", 400⟩ ∧
     patchRoute sampleStore "not-a-valid-id!!!" ⟨none, none, none⟩ 5
       = (.error ⟨"Invalid product ID format", 400⟩, sampleStore) ∧
     deleteRoute sampleStore "not-a-valid-id!!!"
       = (.error ⟨"Invalid product ID format", 400⟩, sampleStore)) ∧
    (getByIdRoute sampleStore "00000000000000000000ffff" = .error ⟨"Product not found", 404⟩ ∧
     deleteRoute sampleStore "00000000000000000000ffff"
       = (.error ⟨"Product not found", 404⟩, sampleStore) ∧
     ∀ (b b' : ProductBody) (now : ℕ), validateProductInput .PATCH b = .ok b' →
       patchRoute sampleStore "00000000000000000000ffff" b now
         = (.error ⟨"Product not found", 404⟩, sampleStore)) :=
  ⟨(c4_malformed_id_gate "not-a-valid-id!!!").1 (by decide) sampleStore ⟨none, none, none⟩ 5,
   (c4_malformed_id_gate "00000000000000000000ffff").2.1 (by decide) sampleStore
     (by with_unfolding_all rfl)⟩

/-- C5 counterexample: `minPrice=Infinity` does not parse to a finite number,
yet the request succeeds — the bound becomes `$gte: Infinity` and an (empty)
query is issued — instead of failing with a validation error. -/
theorem c5_infinite_min_price_counterexample :
    parseFloatJS "Infinity" = .posInf ∧
    buildFilter ⟨none, none, none, some "Infinity", none⟩
      = .ok ⟨none, some ⟨some .posInf, none⟩⟩ ∧
    getProducts ⟨none, none, none, some "Infinity", none⟩ sampleStore
      = .ok (.envelope ⟨[], 0, 1, 1⟩) :=
  ⟨by with_unfolding_all rfl, by with_unfolding_all rfl, by with_unfolding_all rfl⟩

/-- C5 amended: a present, truthy price bound fails with a 400 error naming
the bound exactly when `parseFloat` yields NaN or a negative number — a bound
parsing to the non-finite `Infinity` is accepted — and on failure the same
error is returned for every store, so no query is issued.  An invalid
`minPrice` is reported first; an invalid `maxPrice` is reported whenever the
`minPrice` parameter is absent, empty, or itself valid. -/
theorem c5_price_bound_validation_amended (q : ProductQueryParams) (s : String) :
    (q.minPrice = some s → s ≠ "" →
      (jsIsNaN (parseFloatJS s) || jsLt (parseFloatJS s) (.num 0)) = true →
      ∀ store : List StoredProduct,
        getProducts q store = .error ⟨"minPrice must be a valid positive number", 400⟩) ∧
    (q.maxPrice = some s → s ≠ "" →
      (truthyStr q.minPrice = false ∨
        (jsIsNaN (parseFloatJS (strOr q.minPrice "")) ||
          jsLt (parseFloatJS (strOr q.minPrice "")) (.num 0)) = false) →
      (jsIsNaN (parseFloatJS s) || jsLt (parseFloatJS s) (.num 0)) = true →
      ∀ store : List StoredProduct,
        getProducts q store = .error ⟨"maxPrice must be a valid positive number", 400⟩) := by
  constructor
  · intro hm hs hchk store
    have ht : truthyStr q.minPrice = true := by simp [truthyStr, hm, hs]
    have hstr : strOr q.minPrice "" = s := by simp [strOr, hm, hs]
    have hmp : minPriceCheck q = .error ⟨"minPrice must be a valid positive number", 400⟩ := by
      unfold minPriceCheck
      rw [ht, if_pos rfl, hstr, if_pos hchk]
    have hbf : buildFilter q = .error ⟨"minPrice must be a valid positive number", 400⟩ := by
      unfold buildFilter
      rw [ht]
      simp only [Bool.true_or, if_true]
      rw [hmp]
    unfold getProducts
    rw [hbf]
  · intro hm hs hminok hchk store
    have ht : truthyStr q.maxPrice = true := by simp [truthyStr, hm, hs]
    have hstr : strOr q.maxPrice "" = s := by simp [strOr, hm, hs]
    have hmc : ∃ g : Option JSNum, minPriceCheck q = .ok g := by
      by_cases htm : truthyStr q.minPrice = true
      · rcases hminok with hnt | hvalid
        · rw [htm] at hnt
          exact absurd hnt (by simp)
        · refine ⟨some (parseFloatJS (strOr q.minPrice "")), ?_⟩
          unfold minPriceCheck
          rw [htm, if_pos rfl, if_neg (by simp [hvalid])]
      · refine ⟨none, ?_⟩
        unfold minPriceCheck
        rw [if_neg htm]
    rcases hmc with ⟨g, hmcg⟩
    have hmp : maxPriceCheck q = .error ⟨"maxPrice must be a valid positive number", 400⟩ := by
      unfold maxPriceCheck
      rw [ht, if_pos rfl, hstr, if_pos hchk]
    have hbf : buildFilter q = .error ⟨"maxPrice must be a valid positive number", 400⟩ := by
      unfold buildFilter
      rw [ht]
      simp only [Bool.or_true, if_true]
      rw [hmcg, hmp]
    unfold getProducts
    rw [hbf]

/-- C5 witness: `minPrice=abc` concretely fails with the 400 error naming
`minPrice`, and `minPrice=10&maxPrice=-5` — a valid present minPrice with an
invalid maxPrice — fails with the 400 error naming `maxPrice`, over the
sample store. -/
theorem c5_price_bound_validation_amended_witness :
    getProducts ⟨none, none, none, some "abc", none⟩ sampleStore
      = .error ⟨"minPrice must be a valid positive number", 400⟩ ∧
    getProducts ⟨none, none, none, some "10", some "-5"⟩ sampleStore
      = .error ⟨"maxPrice must be a valid positive number", 400⟩ :=
  ⟨(c5_price_bound_validation_amended ⟨none, none, none, some "abc", none⟩ "abc").1
      rfl (by decide) (by with_unfolding_all rfl) sampleStore,
   (c5_price_bound_validation_amended ⟨none, none, none, some "10", some "-5"⟩ "-5").2
      rfl (by decide) (Or.inr (by with_unfolding_all rfl)) (by with_unfolding_all rfl)
      sampleStore⟩

set_option maxRecDepth 8000 in
/-- C6 counterexample: a create whose name trims to exactly 200 characters
but has raw length 201 (a trailing blank) is rejected, because the
200-character bound is checked on the untrimmed string. -/
theorem c6_name_length_counterexample :
    (String.mk (List.replicate 200 'a' ++ [' '])).trim.length = 200 ∧
    validateProductInput .POST
      ⟨some (.str (String.mk (List.replicate 200 'a' ++ [' ']))),
       some (.num (.num 5)), some (.str "Books")⟩
      = .error ⟨"Name cannot exceed 200 characters", 400⟩ :=
  ⟨by with_unfolding_all rfl, by with_unfolding_all rfl⟩

/-- C6 amended: on create (with a valid price), a name is accepted iff it is
a string that is non-empty after trimming and whose untrimmed length is at
most 200, and a category iff non-empty after trimming with untrimmed length
at most 100 — the emptiness check trims, the length check does not (the
controller still trims before storage). -/
theorem c6_create_field_validation_amended (n c : String) (p : ℚ) (hp : 0 < p) :
    validateProductInput .POST ⟨some (.str n), some (.num (.num p)), some (.str c)⟩
      = .ok ⟨some (.str n), some (.num (.num p)), some (.str c)⟩
    ↔ (n.trim.length ≠ 0 ∧ n.length ≤ 200 ∧ c.trim.length ≠ 0 ∧ c.length ≤ 100) := by
  have hprice : checkPrice (some (.num (.num p))) true = [] := by
    simp [checkPrice, jsIsFinite, jsLe, hp.not_le]
  by_cases hn0 : n.trim.length = 0 <;> by_cases hn2 : n.length ≤ 200 <;>
    by_cases hc0 : c.trim.length = 0 <;> by_cases hc2 : c.length ≤ 100 <;>
    simp [validateProductInput, checkName, checkCategory, hprice, hn0, hn2, hc0, hc2,
      Nat.lt_iff_add_one_le]

/-- C6 witness: the create body `name=Widget, price=5, category=Books` is
accepted, matching the amended acceptance condition. -/
theorem c6_create_field_validation_amended_witness :
    (0 : ℚ) < 5 ∧
    (validateProductInput .POST ⟨some (.str "Widget"), some (.num (.num 5)), some (.str "Books")⟩
        = .ok ⟨some (.str "Widget"), some (.num (.num 5)), some (.str "Books")⟩
      ↔ (("Widget").trim.length ≠ 0 ∧ ("Widget").length ≤ 200 ∧
         ("Books").trim.length ≠ 0 ∧ ("Books").length ≤ 100)) :=
  ⟨by norm_num, c6_create_field_validation_amended "Widget" "Books" 5 (by norm_num)⟩

/-- C7: every successful partial update that supplies only the price field
keeps the record's name, category, id and createdAt, sets the supplied
price, and moves updatedAt strictly forward (the write happens at a strictly
later clock tick than the previous one). -/
theorem c7_price_only_update_frame (store store' : List StoredProduct) (id : String)
    (v : ℚ) (now : ℕ) (r p' : StoredProduct)
    (hr : findById store id = some r)
    (hnow : r.updatedAt < now)
    (h : patchRoute store id ⟨none, some (.num (.num v)), none⟩ now = (.ok p', store')) :
    p'.name = r.name ∧ p'.category = r.category ∧ p'.id = r.id ∧
    p'.createdAt = r.createdAt ∧ p'.price = v ∧ r.updatedAt < p'.updatedAt := by
  by_cases hid : isValidObjectId id
  · unfold patchRoute validateObjectId at h
    rw [if_pos hid] at h
    dsimp only at h
    by_cases hv0 : v = 0
    · exfalso
      subst hv0
      have hval : validateProductInput .PATCH ⟨none, some (.num (.num 0)), none⟩
          = .error ⟨"At least one field (name, price, or category) must be provided with a valid value", 400⟩ := by
        with_unfolding_all rfl
      rw [hval] at h
      exact Except.noConfusion (congrArg Prod.fst h)
    · have hnorm : normalizePatch ⟨none, some (.num (.num v)), none⟩
          = ⟨none, some (.num (.num v)), none⟩ := by
        simp [normalizePatch, hv0]
      by_cases hvle : v ≤ 0
      · exfalso
        have hval : validateProductInput .PATCH ⟨none, some (.num (.num v)), none⟩
            = .error ⟨"Price must be greater than 0", 400⟩ := by
          unfold validateProductInput
          rw [if_pos rfl, hnorm]
          simp [checkName, checkPrice, checkCategory, jsIsFinite, jsLe, hvle]
          rfl
        rw [hval] at h
        exact Except.noConfusion (congrArg Prod.fst h)
      · have hok : validateProductInput .PATCH ⟨none, some (.num (.num v)), none⟩
            = .ok ⟨none, some (.num (.num v)), none⟩ := by
          unfold validateProductInput
          rw [if_pos rfl, hnorm]
          simp [checkName, checkPrice, checkCategory, jsIsFinite, jsLe, hvle]
        rw [hok] at h
        dsimp only at h
        unfold updateProduct at h
        rw [hr] at h
        dsimp only at h
        by_cases hschema : schemaValidatesProduct
            (applyUpdates r (updatesOf ⟨none, some (.num (.num v)), none⟩) now).name
            (applyUpdates r (updatesOf ⟨none, some (.num (.num v)), none⟩) now).price
            (applyUpdates r (updatesOf ⟨none, some (.num (.num v)), none⟩) now).category
        · rw [if_pos hschema] at h
          have h1 : Except.ok (applyUpdates r (updatesOf ⟨none, some (.num (.num v)), none⟩) now)
              = Except.ok p' := congrArg Prod.fst h
          have hp' : p' = applyUpdates r (updatesOf ⟨none, some (.num (.num v)), none⟩) now := by
            injection h1 with h2
            exact h2.symm
          subst hp'
          exact ⟨rfl, rfl, rfl, rfl, rfl, hnow⟩
        · rw [if_neg hschema] at h
          exact absurd (congrArg Prod.fst h) (by simp)
  · exfalso
    unfold patchRoute validateObjectId at h
    rw [if_neg hid] at h
    exact Except.noConfusion (congrArg Prod.fst h)

/-- C7 witness: updating only the price of the concrete sample record keeps
its other fields and advances updatedAt. -/
theorem c7_price_only_update_frame_witness :
    findById sampleStore "0123456789abcdef01234567" = some sampleA ∧
    sampleA.updatedAt < 10 ∧
    ((⟨"0123456789abcdef01234567", "Widget", 42, "Electronics", 1, 10⟩ : StoredProduct).name
        = sampleA.name ∧
     (⟨"0123456789abcdef01234567", "Widget", 42, "Electronics", 1, 10⟩ : StoredProduct).category
        = sampleA.category ∧
     (⟨"0123456789abcdef01234567", "Widget", 42, "Electronics", 1, 10⟩ : StoredProduct).id
        = sampleA.id ∧
     (⟨"0123456789abcdef01234567", "Widget", 42, "Electronics", 1, 10⟩ : StoredProduct).createdAt
        = sampleA.createdAt ∧
     (⟨"0123456789abcdef01234567", "Widget", 42, "Electronics", 1, 10⟩ : StoredProduct).price
        = 42 ∧
     sampleA.updatedAt
        < (⟨"0123456789abcdef01234567", "Widget", 42, "Electronics", 1, 10⟩ : StoredProduct).updatedAt) :=
  ⟨by with_unfolding_all rfl, by decide,
   c7_price_only_update_frame sampleStore
     [⟨"0123456789abcdef01234567", "Widget", 42, "Electronics", 1, 10⟩, sampleB, sampleC]
     "0123456789abcdef01234567" 42 10 sampleA
     ⟨"0123456789abcdef01234567", "Widget", 42, "Electronics", 1, 10⟩
     (by with_unfolding_all rfl) (by decide) (by with_unfolding_all rfl)⟩

/-- C8 counterexample: a category parameter of a single blank is empty after
trimming, yet it is NOT treated as "not provided": the truthiness test sees
the non-empty raw string and installs an equality filter on the trimmed
(empty) category, so the envelope differs from the no-category request. -/
theorem c8_whitespace_category_counterexample :
    (" ").trim = "" ∧
    buildFilter ⟨none, none, some " ", none, none⟩ = .ok ⟨some "", none⟩ ∧
    getProducts ⟨none, none, some " ", none, none⟩ sampleStore
      = .ok (.envelope ⟨[], 0, 1, 1⟩) ∧
    getProducts ⟨none, none, none, none, none⟩ sampleStore
      = .ok (.envelope ⟨[sampleC, sampleB, sampleA], 3, 1, 1⟩) ∧
    getProducts ⟨none, none, some " ", none, none⟩ sampleStore
      ≠ getProducts ⟨none, none, none, none, none⟩ sampleStore := by
  have h1 : getProducts ⟨none, none, some " ", none, none⟩ sampleStore
      = .ok (.envelope ⟨[], 0, 1, 1⟩) := by with_unfolding_all rfl
  have h2 : getProducts ⟨none, none, none, none, none⟩ sampleStore
      = .ok (.envelope ⟨[sampleC, sampleB, sampleA], 3, 1, 1⟩) := by with_unfolding_all rfl
  refine ⟨by with_unfolding_all rfl, by with_unfolding_all rfl, h1, h2, ?_⟩
  rw [h1, h2]
  intro hc
  injection hc with hc1
  injection hc1 with hc2
  have ht := congrArg PaginatedResponse.total hc2
  simp at ht

/-- C8 amended: a category parameter equal to the empty string is treated as
not provided (the envelope is identical to the request without it), and with
no category and no price parameters the predicate matches every record; but
every non-empty category parameter — including one that trims to empty — is
installed as an equality filter on its trimmed value. -/
theorem c8_category_normalization_amended (q : ProductQueryParams)
    (store : List StoredProduct) :
    (q.category = some "" →
      buildFilter q = buildFilter { q with category := none } ∧
      getProducts q store = getProducts { q with category := none } store) ∧
    (∀ s : String, q.category = some s → s ≠ "" →
      ∀ f : ProductFilter, buildFilter q = .ok f → f.category = some s.trim) ∧
    (q.category = none → q.minPrice = none → q.maxPrice = none →
      buildFilter q = .ok ⟨none, none⟩ ∧
      ∀ r : StoredProduct, matchesFilter ⟨none, none⟩ r = true) := by
  refine ⟨?_, ?_, ?_⟩
  · intro hc
    have e1 : buildFilter q = buildFilter { q with category := none } := by
      unfold buildFilter
      rw [hc]
      rfl
    refine ⟨e1, ?_⟩
    unfold getProducts
    rw [e1]
    rfl
  · intro s hcs hsne f hbf
    unfold buildFilter at hbf
    rw [hcs] at hbf
    dsimp only at hbf
    rw [if_neg hsne] at hbf
    by_cases hpr : (truthyStr q.minPrice || truthyStr q.maxPrice) = true
    · rw [if_pos hpr] at hbf
      rcases hmp : minPriceCheck q with e | gteB
      · rw [hmp] at hbf
        exact Except.noConfusion hbf
      · rw [hmp] at hbf
        rcases hMp : maxPriceCheck q with e | lteB
        · rw [hMp] at hbf
          exact Except.noConfusion hbf
        · rw [hMp] at hbf
          injection hbf with hf
          rw [← hf]
    · rw [if_neg hpr] at hbf
      injection hbf with hf
      rw [← hf]
  · intro hc hmin hmax
    constructor
    · unfold buildFilter
      rw [hc, hmin, hmax]
      rfl
    · intro r
      rfl

/-- C8 witness: the concrete empty-string category request returns the same
envelope as the request without a category parameter. -/
theorem c8_category_normalization_amended_witness :
    buildFilter ⟨none, none, some "", none, none⟩
      = buildFilter { (⟨none, none, some "", none, none⟩ : ProductQueryParams) with
          category := none } ∧
    getProducts ⟨none, none, some "", none, none⟩ sampleStore
      = getProducts { (⟨none, none, some "", none, none⟩ : ProductQueryParams) with
          category := none } sampleStore :=
  (c8_category_normalization_amended ⟨none, none, some "", none, none⟩ sampleStore).1 rfl

/-- C9: when both price bounds are present and valid (finite, nonnegative)
and minPrice exceeds maxPrice, the built predicate matches no records and the
request succeeds with an empty envelope (total 0, page 1, pages 1) rather
than failing with a validation error. -/
theorem c9_inverted_price_range (q : ProductQueryParams) (store : List StoredProduct)
    (sm sM : String) (a b : ℚ) (pz lz : ℤ)
    (hm : q.minPrice = some sm) (hM : q.maxPrice = some sM)
    (hpa : parseFloatJS sm = .num a) (hpb : parseFloatJS sM = .num b)
    (ha : 0 ≤ a) (hb : 0 ≤ b) (hab : b < a)
    (hp : parseIntJS (strOr q.page "1") = .num (pz : ℚ))
    (hl : parseIntJS (strOr q.limit "10") = .num (lz : ℚ)) :
    getProducts q store = .ok (.envelope ⟨[], 0, 1, 1⟩) := by
  have hnanE : parseFloatJS "" = .nan := by with_unfolding_all rfl
  have hsm : sm ≠ "" := by
    intro hx
    rw [hx, hnanE] at hpa
    exact JSNum.noConfusion hpa
  have hsM : sM ≠ "" := by
    intro hx
    rw [hx, hnanE] at hpb
    exact JSNum.noConfusion hpb
  have htm : truthyStr q.minPrice = true := by simp [truthyStr, hm, hsm]
  have htM : truthyStr q.maxPrice = true := by simp [truthyStr, hM, hsM]
  have hstrm : strOr q.minPrice "" = sm := by simp [strOr, hm, hsm]
  have hstrM : strOr q.maxPrice "" = sM := by simp [strOr, hM, hsM]
  have hmc : minPriceCheck q = .ok (some (.num a)) := by
    unfold minPriceCheck
    rw [htm, if_pos rfl, hstrm, hpa]
    simp [jsIsNaN, jsLt, not_lt.mpr ha]
  have hMc : maxPriceCheck q = .ok (some (.num b)) := by
    unfold maxPriceCheck
    rw [htM, if_pos rfl, hstrM, hpb]
    simp [jsIsNaN, jsLt, not_lt.mpr hb]
  have hbf : buildFilter q = .ok
      ⟨(match q.category with
        | some s => if s = "" then none else some s.trim
        | none => none), some ⟨some (.num a), some (.num b)⟩⟩ := by
    unfold buildFilter
    rw [htm]
    simp only [Bool.true_or, if_true]
    rw [hmc, hMc]
  set f : ProductFilter :=
    ⟨(match q.category with
      | some s => if s = "" then none else some s.trim
      | none => none), some ⟨some (.num a), some (.num b)⟩⟩ with hfdef
  have hmatch : ∀ r : StoredProduct, matchesFilter f r = false := by
    intro r
    unfold matchesFilter priceMatches
    rcases le_or_lt a r.price with hle | hlt
    · have h2 : ¬ r.price ≤ b := fun hh => absurd (le_trans hle hh) (not_le.mpr hab)
      simp [hfdef, jsLe, h2]
    · simp [hfdef, jsLe, not_le.mpr hlt]
  have hfe : store.filter (matchesFilter f) = [] :=
    List.filter_eq_nil_iff.mpr (fun r _ => by simp [hmatch r])
  have htot : countDocuments store f = 0 := by
    unfold countDocuments
    rw [hfe]
    rfl
  have heval := getProducts_eval q store f pz lz hbf hp hl
  rw [heval]
  have henv : envelopeN store f pz lz = ⟨[], 0, 1, 1⟩ := by
    unfold envelopeN
    dsimp only
    rw [htot]
    have h1 : pagesZ 0 (effLimitZ lz) = 1 := pagesZ_of_total_zero _
    rw [h1]
    have h2 : min (reqPageZ pz) 1 = 1 := by
      have := one_le_reqPageZ pz
      omega
    rw [h2]
    unfold findSorted
    rw [hfe]
    simp
  rw [henv]

/-- C9 witness: `minPrice=150&maxPrice=100` concretely returns the empty
envelope over the sample store. -/
theorem c9_inverted_price_range_witness :
    getProducts ⟨none, none, none, some "150", some "100"⟩ sampleStore
      = .ok (.envelope ⟨[], 0, 1, 1⟩) :=
  c9_inverted_price_range ⟨none, none, none, some "150", some "100"⟩ sampleStore
    "150" "100" 150 100 1 10 rfl rfl
    (by with_unfolding_all rfl) (by with_unfolding_all rfl)
    (by norm_num) (by norm_num) (by norm_num)
    (by with_unfolding_all rfl) (by with_unfolding_all rfl)

/-- C10: for every list request with numeric page and limit whose filter
matches at least one record, the computed skip stays strictly below the
total (the effective page is clamped to at most `ceil(total/limit)`), so the
returned record list is non-empty — every reachable page, the last included,
carries at least one record. -/
theorem c10_reachable_pages_nonempty (q : ProductQueryParams) (store : List StoredProduct)
    (pz lz : ℤ) (r : ListResult) (f : ProductFilter)
    (hf : buildFilter q = .ok f)
    (hp : parseIntJS (strOr q.page "1") = .num (pz : ℚ))
    (hl : parseIntJS (strOr q.limit "10") = .num (lz : ℚ))
    (h : getProducts q store = .ok r)
    (htot : 0 < countDocuments store f) :
    ∃ env : PaginatedResponse, r = .envelope env ∧
      (env.page - 1) * (effLimitZ lz).toNat < env.total ∧
      env.data ≠ [] := by
  have heval := getProducts_eval q store f pz lz hf hp hl
  rw [heval] at h
  injection h with h1
  refine ⟨envelopeN store f pz lz, h1.symm, ?_, ?_⟩
  all_goals
    set T := countDocuments store f with hT
    set L := effLimitZ lz with hLdef
    have hL1 : 1 ≤ L := one_le_effLimitZ lz
    set PGS := pagesZ T L with hPGS
    have hPGS1 : 1 ≤ PGS := one_le_pagesZ T L
    have hRP1 := one_le_reqPageZ pz
    set PG := min (reqPageZ pz) PGS with hPG
    have hPG1 : 1 ≤ PG := by omega
    have hLpos : (0 : ℚ) < ((L : ℤ) : ℚ) := by
      exact_mod_cast (by omega : (0 : ℤ) < L)
    have hxpos : (0 : ℚ) < (T : ℚ) / ((L : ℤ) : ℚ) :=
      div_pos (by exact_mod_cast htot) hLpos
    have hceilpos : (0 : ℤ) < Int.ceil ((T : ℚ) / ((L : ℤ) : ℚ)) := by
      rw [Int.lt_ceil]
      exact_mod_cast hxpos
    have hPGSceil : PGS = Int.ceil ((T : ℚ) / ((L : ℤ) : ℚ)) := by
      rw [hPGS]
      unfold pagesZ
      omega
    have hqlt : (((PGS - 1) * L : ℤ) : ℚ) < (T : ℚ) := by
      have hc1 : ((PGS : ℤ) : ℚ) < (T : ℚ) / ((L : ℤ) : ℚ) + 1 := by
        rw [hPGSceil]
        exact Int.ceil_lt_add_one _
      have hc2 : ((PGS : ℤ) : ℚ) - 1 < (T : ℚ) / ((L : ℤ) : ℚ) := by linarith
      have hc3 : (((PGS : ℤ) : ℚ) - 1) * ((L : ℤ) : ℚ)
          < ((T : ℚ) / ((L : ℤ) : ℚ)) * ((L : ℤ) : ℚ) :=
        mul_lt_mul_of_pos_right hc2 hLpos
      rw [div_mul_cancel₀ _ (ne_of_gt hLpos)] at hc3
      push_cast
      linarith
    have hPGSkey : (PGS - 1) * L < (T : ℤ) := by exact_mod_cast hqlt
    have hmono : (PG - 1) * L ≤ (PGS - 1) * L :=
      mul_le_mul_of_nonneg_right (by omega) (by omega)
    have hPGkey : (PG - 1) * L < (T : ℤ) := lt_of_le_of_lt hmono hPGSkey
    have hmm : ((PG - 1) * L).toNat = (PG.toNat - 1) * L.toNat := by
      rw [int_toNat_mul (PG - 1) L (by omega) (by omega)]
      congr 1
      omega
    have hK0 : (0 : ℤ) ≤ (PG - 1) * L := mul_nonneg (by omega) (by omega)
    set K := (PG - 1) * L with hKdef
  · show (PG.toNat - 1) * L.toNat < T
    rw [← hmm]
    omega
  · show findSorted store f ((PG - 1) * L).toNat L.toNat ≠ []
    unfold findSorted
    intro hnil
    have hlen := congrArg List.length hnil
    rw [List.length_take, List.length_drop, List.length_insertionSort] at hlen
    have hTlen : (store.filter (matchesFilter f)).length = T := rfl
    rw [hTlen] at hlen
    simp only [List.length_nil] at hlen
    omega

/-- C10 witness: the last page of `page=2&limit=2` over three records is
non-empty and its skip (2) is below the total (3). -/
theorem c10_reachable_pages_nonempty_witness :
    ∃ env : PaginatedResponse,
      (ListResult.envelope { data := [sampleA], total := 3, page := 2, pages := 2 })
        = .envelope env ∧
      (env.page - 1) * (effLimitZ 2).toNat < env.total ∧
      env.data ≠ [] :=
  c10_reachable_pages_nonempty ⟨some "2", some "2", none, none, none⟩ sampleStore 2 2
    (.envelope { data := [sampleA], total := 3, page := 2, pages := 2 }) ⟨none, none⟩
    (by with_unfolding_all rfl) (by with_unfolding_all rfl) (by with_unfolding_all rfl)
    (by with_unfolding_all rfl)
    (by
      have h3 : countDocuments sampleStore ⟨none, none⟩ = 3 := by with_unfolding_all rfl
      rw [h3]
      norm_num)
